import Mathlib

/-!
Verification development for an MCP chat client (client/mcp_client.py):
a tool-calling conversation loop (process_query), tool-catalog discovery
(connect_to_server), and a transcript recorder (log_conversation),
modelled shallowly. Python dictionaries and JSON payloads are modelled by
the JsonVal type; the three external collaborators (the LLM endpoint, the
RPC tool channel, and the wall clock) are inputs: a scripted list of
responses, a function from tool name and arguments to a result, and an
explicit Timestamp argument.
-/

/-- JSON-like values: decoded argument payloads, tool input schemas and
serialized dictionaries. -/
inductive JsonVal where
  | null
  | bool (b : Bool)
  | num (n : Int)
  | str (s : String)
  | arr (elems : List JsonVal)
  | obj (fields : List (String × JsonVal))

/-- The encoded arguments string of a tool call, paired with what the
call json.loads(tool_call.function.arguments) yields on it: either a raw
text with its parsed payload, or a malformed raw text on which parsing
raises a decode error. -/
inductive ArgText where
  | wellFormed (raw : String) (payload : JsonVal)
  | malformed (raw : String)

/-- The raw encoded text, as stored by the recorder in the arguments
field. -/
def ArgText.raw : ArgText → String
  | .wellFormed r _ => r
  | .malformed r => r

/-- Models json.loads on a tool call's arguments string: the parsed
payload, or the decode error the spec calls ArgumentDecodeError. -/
def json_loads : ArgText → Except String JsonVal
  | .wellFormed _ p => Except.ok p
  | .malformed r => Except.error r

/-- The in-memory representation of one requested tool call, as the
recorder's three normalization branches distinguish them: an object with
id and function attributes but no to_dict method, an object that also
exposes to_dict (returning the dictionary asDict, whose exact content is
the external library's), or an already-flat plain mapping (which has
neither attribute access nor to_dict). -/
inductive ToolCallRepr where
  | obj (id : String) (name : String) (arguments : ArgText)
  | objWithToDict (id : String) (name : String) (arguments : ArgText) (asDict : JsonVal)
  | dict (d : JsonVal)

/-- Attribute access tool_call.id, tool_call.function.name and
tool_call.function.arguments: available on structured objects (with or
without to_dict), and an AttributeError (modelled as none) on a plain
mapping. -/
def tc_attrs : ToolCallRepr → Option (String × String × ArgText)
  | .obj i n a => some (i, n, a)
  | .objWithToDict i n a _ => some (i, n, a)
  | .dict _ => none

/-- One entry of self.messages: a Python dict with a role key, an
optional content key (whose value may itself be None, i.e. JsonVal.null),
an optional tool_calls key and an optional tool_call_id key. An Option
field being none models the key being absent from the dict. -/
structure Msg where
  role : String
  content : Option JsonVal
  tool_calls : Option (List ToolCallRepr)
  tool_call_id : Option String

/-- One serialized message as built by log_conversation: role always,
the other keys only when present on the source dict. -/
structure SerMsg where
  role : String
  content : Option JsonVal
  tool_calls : Option (List JsonVal)
  tool_call_id : Option String

/-- Serialization of a single tool call by log_conversation: the to_dict
branch returns whatever the object's own to_dict yields, the dict branch
passes the mapping through unchanged, and the attribute branch builds the
flat dictionary with id and function keys, function holding name and
arguments. -/
def serialize_tool_call : ToolCallRepr → JsonVal
  | .objWithToDict _ _ _ d => d
  | .dict d => d
  | .obj i n a =>
      JsonVal.obj [("id", JsonVal.str i),
        ("function", JsonVal.obj [("name", JsonVal.str n),
          ("arguments", JsonVal.str a.raw)])]

/-- Serialization of one message by log_conversation: role always;
content, tool_calls and tool_call_id copied exactly when the key is
present, each tool call serialized by serialize_tool_call. -/
def serialize_message (m : Msg) : SerMsg :=
  ⟨m.role, m.content, m.tool_calls.map (fun l => l.map serialize_tool_call),
    m.tool_call_id⟩

/-- The serializable_conversation list built by log_conversation. -/
def serialize_conversation (msgs : List Msg) : List SerMsg :=
  msgs.map serialize_message

/-- A wall-clock instant as datetime.now() observes it. -/
structure Timestamp where
  year : Nat
  month : Nat
  day : Nat
  hour : Nat
  minute : Nat
  second : Nat
  microsecond : Nat
deriving DecidableEq

/-- The record identifier produced by strftime with the pattern
year-month-day_hour-minute-second: second granularity, the microsecond
field is dropped. On the in-range fields datetime guarantees, the
formatted string is determined by and determines this tuple, so the tuple
models the filename conversation_<timestamp>.json faithfully. -/
structure RecordKey where
  year : Nat
  month : Nat
  day : Nat
  hour : Nat
  minute : Nat
  second : Nat
deriving DecidableEq

/-- The key under which log_conversation files the snapshot taken at
instant t. -/
def record_key (t : Timestamp) : RecordKey :=
  ⟨t.year, t.month, t.day, t.hour, t.minute, t.second⟩

/-- The conversations directory: a mapping from record keys to written
snapshots. -/
def RecordStore : Type := List (RecordKey × List SerMsg)

/-- Opening a file named after the key in write mode and dumping the
snapshot: replaces the record already stored under that key, otherwise
creates a new one. -/
def store_write : RecordStore → RecordKey → List SerMsg → RecordStore
  | [], k, v => [(k, v)]
  | (k', v') :: rest, k, v =>
      if k' = k then (k, v) :: rest else (k', v') :: store_write rest k v

/-- Reading back the record stored under a key, if any. -/
def store_get : RecordStore → RecordKey → Option (List SerMsg)
  | [], _ => none
  | (k', v') :: rest, k => if k' = k then some v' else store_get rest k

/-- The whole of log_conversation as a state transformer on the
conversations directory: serialize self.messages and write the snapshot
under the key derived from the current wall-clock instant. -/
def log_conversation (store : RecordStore) (now : Timestamp) (msgs : List Msg) :
    RecordStore :=
  store_write store (record_key now) (serialize_conversation msgs)

/-- The exceptions process_query and connect_to_server can raise, under
the spec's taxonomy where it has a name for them: jsonDecodeError is the
spec's ArgumentDecodeError (json.loads failing), toolExecutionError its
ToolExecutionError (session.call_tool failing). attributeError and
indexError are the Python exceptions raised by dereferencing a missing
attribute or indexing an empty choices list. llmExhausted marks the point
where the model of the loop runs off the end of the scripted LLM
responses; no run settled here ever reaches it. -/
inductive PyError where
  | valueError (msg : String)
  | attributeError (attr : String)
  | indexError
  | jsonDecodeError (msg : String)
  | toolExecutionError (msg : String)
  | llmExhausted
deriving DecidableEq

/-- The result object returned by session.call_tool, of which the loop
reads the content attribute. -/
structure ToolResult where
  content : String

/-- The RPC channel's call_tool operation, an external collaborator:
from a tool name and a decoded argument payload to a result or a
failure. -/
abbrev ToolRpc := String → JsonVal → Except String ToolResult

/-- The message object inside one choice of an LLM response: content and
tool_calls attributes, either may be None. -/
structure RespMessage where
  content : Option String
  tool_calls : Option (List ToolCallRepr)

/-- One element of the choices list of an LLM response. -/
structure ChatChoice where
  message : RespMessage

/-- An LLM response object; choices being none models an object on which
hasattr(response, choices) is false. -/
structure LLMResponse where
  choices : Option (List ChatChoice)

/-- The observable state of one process_query run: self.messages, the
chronological sequence of snapshots passed to log_conversation so far,
and how many LLM calls have been made. -/
structure LoopState where
  messages : List Msg
  records : List (List SerMsg)
  llmCalls : Nat

/-- The value a message dict's content key receives from an attribute
that may be None: the string, or JSON null. -/
def content_val : Option String → JsonVal
  | some s => JsonVal.str s
  | none => JsonVal.null

/-- The user message process_query resets self.messages to. -/
def user_msg (query : String) : Msg :=
  ⟨"user", some (JsonVal.str query), none, none⟩

/-- The tool-role message appended for one successful tool call:
tool_call_id is the call's id, content the raw result payload. -/
def tool_result_msg (id : String) (content : String) : Msg :=
  ⟨"tool", some (JsonVal.str content), none, some id⟩

/-- The body of the for-loop over message.tool_calls in process_query,
dispatching the batch strictly in list order: read the call's
attributes, json.loads its arguments, invoke call_tool; on success
append the tool-role message and record the transcript, then continue
with the rest; on any failure stop, keeping the state accumulated so
far, with the raised error. -/
def dispatch_tool_calls (rpc : ToolRpc) (st : LoopState) :
    List ToolCallRepr → LoopState × Option PyError
  | [] => (st, none)
  | tc :: rest =>
    match tc_attrs tc with
    | none => (st, some (PyError.attributeError "function"))
    | some (id, name, args) =>
      match json_loads args with
      | Except.error e => (st, some (PyError.jsonDecodeError e))
      | Except.ok payload =>
        match rpc name payload with
        | Except.error e => (st, some (PyError.toolExecutionError e))
        | Except.ok result =>
          let msgs := st.messages ++ [tool_result_msg id result.content]
          dispatch_tool_calls rpc
            ⟨msgs, st.records ++ [serialize_conversation msgs], st.llmCalls⟩ rest

/-- The final-text branch of the loop: append an assistant message with
only role and content, record the transcript, and break. -/
def final_text_step (st : LoopState) (m : RespMessage) : LoopState × Option PyError :=
  let msgs := st.messages ++ [Msg.mk "assistant" (some (content_val m.content)) none none]
  (⟨msgs, st.records ++ [serialize_conversation msgs], st.llmCalls⟩, none)

/-- The state after appending and recording the assistant message that
carries a batch of tool calls, before dispatching the batch. -/
def tool_turn_state (st : LoopState) (m : RespMessage) (tcs : List ToolCallRepr) :
    LoopState :=
  let amsg := Msg.mk "assistant" (some (content_val m.content)) (some tcs) none
  let msgs := st.messages ++ [amsg]
  ⟨msgs, st.records ++ [serialize_conversation msgs], st.llmCalls⟩

/-- The while-True loop of process_query, run against a scripted list of
LLM responses consumed one per iteration. A response without a choices
attribute passes the short-circuited guard but the branch body then
dereferences response.choices, raising AttributeError; an empty choices
list makes the guard itself raise IndexError. A falsy tool_calls
attribute (None or the empty list) selects the final-text branch;
otherwise the assistant message carrying the tool calls is appended and
recorded, the batch is dispatched, and on success the loop repeats. -/
def run_loop (rpc : ToolRpc) (st : LoopState) :
    List LLMResponse → LoopState × Option PyError
  | [] => (st, some PyError.llmExhausted)
  | r :: rest =>
    let st1 : LoopState := ⟨st.messages, st.records, st.llmCalls + 1⟩
    match r.choices with
    | none => (st1, some (PyError.attributeError "choices"))
    | some [] => (st1, some PyError.indexError)
    | some (ch :: _) =>
      match ch.message.tool_calls with
      | none => final_text_step st1 ch.message
      | some [] => final_text_step st1 ch.message
      | some (tc :: tcs) =>
        match dispatch_tool_calls rpc (tool_turn_state st1 ch.message (tc :: tcs)) (tc :: tcs) with
        | (st3, some e) => (st3, some e)
        | (st3, none) => run_loop rpc st3 rest

/-- process_query: whatever self.messages held before (the prior
argument), it is reset to exactly the one user message, then the loop
runs. The result is the final state (self.messages, the snapshots
recorded, the number of LLM calls) together with the error that
propagated, if any. -/
def process_query (rpc : ToolRpc) (script : List LLMResponse) (query : String)
    (_prior : List Msg) : LoopState × Option PyError :=
  run_loop rpc ⟨[user_msg query], [], 0⟩ script

/-- A tool descriptor as returned by the server's list_tools. -/
structure ToolDescriptor where
  name : String
  description : String
  inputSchema : JsonVal

/-- The function object inside one LLM-facing schema entry. -/
structure FunctionSchema where
  name : String
  description : String
  parameters : JsonVal

/-- One LLM-facing schema entry built by connect_to_server: a dict with
a type key (always the string function) and a function object. -/
structure SchemaEntry where
  type : String
  function : FunctionSchema

/-- The list comprehension in connect_to_server that fills self.tools
from the descriptors returned by list_tools. -/
def build_tool_schemas (mcp_tools : List ToolDescriptor) : List SchemaEntry :=
  mcp_tools.map (fun tool =>
    SchemaEntry.mk "function"
      (FunctionSchema.mk tool.name tool.description tool.inputSchema))

/-- Models Python str.endswith on the script path. -/
def str_ends_with (s suffix : String) : Bool :=
  suffix.data.isSuffixOf s.data

/-- The transport resources connect_to_server may acquire: the processes
spawned through the stdio transport (command and argument list each) and
the session field of the client. -/
structure ConnectState where
  spawned : List (String × List String)
  session : Option (String × List String)
deriving DecidableEq

/-- connect_to_server up to the session handshake: validate the script
path extension first, raising ValueError before any resource is touched;
otherwise choose the interpreter, spawn the server process and open the
session over it. -/
def connect_to_server (server_script_path : String) : ConnectState × Option PyError :=
  let is_python := str_ends_with server_script_path ".py"
  let is_js := str_ends_with server_script_path ".js"
  if !(is_python || is_js) then
    (⟨[], none⟩, some (PyError.valueError "Server script must be a .py or .js file"))
  else
    let command := if is_python then "python" else "node"
    (⟨[(command, [server_script_path])], some (command, [server_script_path])⟩, none)

/-- The outcome of dispatching one tool call alone, when it succeeds:
the tool-role message it appends, carrying the call's id and the raw
result payload. -/
def run_tc (rpc : ToolRpc) (tc : ToolCallRepr) : Option Msg :=
  match tc_attrs tc with
  | none => none
  | some (id, name, args) =>
    match json_loads args with
    | Except.error _ => none
    | Except.ok payload =>
      match rpc name payload with
      | Except.error _ => none
      | Except.ok result => some (tool_result_msg id result.content)

/-- The error dispatching one tool call alone raises, when it fails. -/
def tc_failure (rpc : ToolRpc) (tc : ToolCallRepr) : Option PyError :=
  match tc_attrs tc with
  | none => some (PyError.attributeError "function")
  | some (_, name, args) =>
    match json_loads args with
    | Except.error e => some (PyError.jsonDecodeError e)
    | Except.ok payload =>
      match rpc name payload with
      | Except.error e => some (PyError.toolExecutionError e)
      | Except.ok _ => none

/-- The transcript snapshots a successful batch dispatch records, one
after each individual tool-result append: the i-th snapshot serializes
the base conversation extended by exactly the first i results. -/
def snapshots_from (rpc : ToolRpc) (base : List Msg) :
    List ToolCallRepr → List (List SerMsg)
  | [] => []
  | tc :: rest =>
    match run_tc rpc tc with
    | none => []
    | some m => serialize_conversation (base ++ [m]) :: snapshots_from rpc (base ++ [m]) rest

/-- An error is one of the two kinds the spec names for a failing tool
call: an argument decode failure or an RPC execution failure. -/
def is_abort_error : PyError → Bool
  | PyError.jsonDecodeError _ => true
  | PyError.toolExecutionError _ => true
  | _ => false

/-- Helper: a batch whose calls all succeed dispatches to the base state
extended by one tool-role message per call, in order, with one snapshot
recorded after each append. -/
theorem dispatch_tool_calls_all_ok (rpc : ToolRpc) (tcs : List ToolCallRepr) :
    ∀ st : LoopState, tcs.all (fun tc => (run_tc rpc tc).isSome) = true →
      dispatch_tool_calls rpc st tcs =
        (⟨st.messages ++ tcs.filterMap (run_tc rpc),
          st.records ++ snapshots_from rpc st.messages tcs, st.llmCalls⟩, none) := by
  induction tcs with
  | nil => intro st _; simp [dispatch_tool_calls, snapshots_from]
  | cons tc rest ih =>
    intro st h
    rw [List.all_cons, Bool.and_eq_true] at h
    obtain ⟨htc, hrest⟩ := h
    match h1 : tc_attrs tc with
    | none => simp [run_tc, h1] at htc
    | some (id, name, args) =>
      match h2 : json_loads args with
      | Except.error e => simp [run_tc, h1, h2] at htc
      | Except.ok payload =>
        match h3 : rpc name payload with
        | Except.error e => simp [run_tc, h1, h2, h3] at htc
        | Except.ok result =>
          have hr : run_tc rpc tc = some (tool_result_msg id result.content) := by
            simp [run_tc, h1, h2, h3]
          simp only [dispatch_tool_calls, h1, h2, h3]
          rw [ih _ hrest]
          simp [snapshots_from, hr, List.filterMap_cons]

/-- Helper: reading back the key just written yields the snapshot just
written. -/
theorem store_get_write_self (s : RecordStore) (k : RecordKey) (v : List SerMsg) :
    store_get (store_write s k v) k = some v := by
  induction s with
  | nil => simp [store_write, store_get]
  | cons hd tl ih =>
    obtain ⟨k', v'⟩ := hd
    by_cases h : k' = k
    · simp [store_write, store_get, h]
    · simp [store_write, store_get, h, ih]

/-- Helper: writing one key leaves every other key's record unchanged. -/
theorem store_get_write_other (s : RecordStore) (k j : RecordKey) (v : List SerMsg)
    (h : j ≠ k) : store_get (store_write s k v) j = store_get s j := by
  induction s with
  | nil => simp [store_write, store_get, Ne.symm h]
  | cons hd tl ih =>
    obtain ⟨k', v'⟩ := hd
    by_cases hk : k' = k
    · subst hk
      simp [store_write, store_get, h, Ne.symm h]
    · simp only [store_write, if_neg hk, store_get]
      by_cases hj : k' = j
      · simp [hj]
      · simp [hj, ih]

/-- Helper: dispatching a batch only ever appends to self.messages. -/
theorem dispatch_messages_mono (rpc : ToolRpc) (tcs : List ToolCallRepr) :
    ∀ st : LoopState, st.messages <+: (dispatch_tool_calls rpc st tcs).1.messages := by
  induction tcs with
  | nil => intro st; exact List.prefix_refl _
  | cons tc rest ih =>
    intro st
    match h1 : tc_attrs tc with
    | none => simp only [dispatch_tool_calls, h1]; exact List.prefix_refl _
    | some (id, name, args) =>
      match h2 : json_loads args with
      | Except.error e =>
        simp only [dispatch_tool_calls, h1, h2]; exact List.prefix_refl _
      | Except.ok payload =>
        match h3 : rpc name payload with
        | Except.error e =>
          simp only [dispatch_tool_calls, h1, h2, h3]; exact List.prefix_refl _
        | Except.ok result =>
          simp only [dispatch_tool_calls, h1, h2, h3]
          refine (List.prefix_append st.messages [tool_result_msg id result.content]).trans ?_
          exact ih ⟨st.messages ++ [tool_result_msg id result.content],
            st.records ++ [serialize_conversation (st.messages ++ [tool_result_msg id result.content])],
            st.llmCalls⟩

/-- Helper: the loop only ever appends to self.messages, whatever the
script and wherever it stops. -/
theorem run_loop_messages_mono (rpc : ToolRpc) (script : List LLMResponse) :
    ∀ st : LoopState, st.messages <+: (run_loop rpc st script).1.messages := by
  induction script with
  | nil => intro st; exact List.prefix_refl _
  | cons r rest ih =>
    intro st
    match hc : r.choices with
    | none => simp only [run_loop, hc]; exact List.prefix_refl _
    | some [] => simp only [run_loop, hc]; exact List.prefix_refl _
    | some (ch :: chs) =>
      match htc : ch.message.tool_calls with
      | none =>
        simp only [run_loop, hc, htc, final_text_step]
        exact List.prefix_append _ _
      | some [] =>
        simp only [run_loop, hc, htc, final_text_step]
        exact List.prefix_append _ _
      | some (tc :: tcs) =>
        simp only [run_loop, hc, htc]
        have h1 : st.messages <+:
            (tool_turn_state ⟨st.messages, st.records, st.llmCalls + 1⟩
              ch.message (tc :: tcs)).messages :=
          List.prefix_append _ _
        have h2 := dispatch_messages_mono rpc (tc :: tcs)
          (tool_turn_state ⟨st.messages, st.records, st.llmCalls + 1⟩ ch.message (tc :: tcs))
        rcases hres : dispatch_tool_calls rpc
            (tool_turn_state ⟨st.messages, st.records, st.llmCalls + 1⟩
              ch.message (tc :: tcs)) (tc :: tcs) with ⟨st3, eo⟩
        rw [hres] at h2
        cases eo with
        | none => exact (h1.trans h2).trans (ih st3)
        | some e => exact h1.trans h2

/-- A concrete RPC channel on which every tool call succeeds. -/
def sample_rpc : ToolRpc := fun name _payload => Except.ok ⟨"result for " ++ name⟩

/-- A concrete structured tool call with well-formed arguments. -/
def tc_weather : ToolCallRepr :=
  ToolCallRepr.obj "call_1" "get_weather"
    (ArgText.wellFormed "\x7b\"city\": \"Paris\"\x7d"
      (JsonVal.obj [("city", JsonVal.str "Paris")]))

/-- A second concrete structured tool call with well-formed arguments. -/
def tc_news : ToolCallRepr :=
  ToolCallRepr.obj "call_2" "get_news"
    (ArgText.wellFormed "\x7b\x7d" (JsonVal.obj []))

/-- A concrete tool call whose arguments string does not parse. -/
def tc_bad : ToolCallRepr :=
  ToolCallRepr.obj "call_3" "get_weather" (ArgText.malformed "not json")

/-- A concrete mid-query loop state: the user message is in the
conversation and one LLM call has been made. -/
def sample_state : LoopState := ⟨[user_msg "What is the weather?"], [], 1⟩

/-- C1: for an assistant turn whose ToolCalls all succeed, the batch is
dispatched strictly in list order: self.messages gains exactly one
tool-role message per call, in the order of the calls, each carrying the
call's id as tool_call_id and the raw result payload as content, and one
transcript snapshot is recorded after each individual append (the i-th
snapshot holding exactly the first i results), not a single batched
record. -/
theorem process_query_dispatch_sequential (rpc : ToolRpc) (st : LoopState)
    (tcs : List ToolCallRepr)
    (h : tcs.all (fun tc => (run_tc rpc tc).isSome) = true) :
    dispatch_tool_calls rpc st tcs =
      (⟨st.messages ++ tcs.filterMap (run_tc rpc),
        st.records ++ snapshots_from rpc st.messages tcs, st.llmCalls⟩, none) ∧
    (∀ (id name : String) (a : ArgText) (payload : JsonVal) (r : ToolResult),
      json_loads a = Except.ok payload → rpc name payload = Except.ok r →
        run_tc rpc (ToolCallRepr.obj id name a) = some (tool_result_msg id r.content)) ∧
    (∀ (st2 : LoopState) (ch : ChatChoice) (chs : List ChatChoice)
        (rest : List LLMResponse) (tc : ToolCallRepr) (tcs1 : List ToolCallRepr),
      ch.message.tool_calls = some (tc :: tcs1) →
      (tc :: tcs1).all (fun t => (run_tc rpc t).isSome) = true →
      run_loop rpc st2 (LLMResponse.mk (some (ch :: chs)) :: rest) =
        run_loop rpc
          ⟨(tool_turn_state ⟨st2.messages, st2.records, st2.llmCalls + 1⟩
              ch.message (tc :: tcs1)).messages ++
            (tc :: tcs1).filterMap (run_tc rpc),
            (tool_turn_state ⟨st2.messages, st2.records, st2.llmCalls + 1⟩
              ch.message (tc :: tcs1)).records ++
              snapshots_from rpc
                (tool_turn_state ⟨st2.messages, st2.records, st2.llmCalls + 1⟩
                  ch.message (tc :: tcs1)).messages (tc :: tcs1),
            st2.llmCalls + 1⟩ rest) := by
  refine ⟨dispatch_tool_calls_all_ok rpc tcs st h, ?_, ?_⟩
  · intro id name a payload r h2 h3
    simp [run_tc, tc_attrs, h2, h3]
  · intro st2 ch chs rest tc tcs1 htc hall
    simp only [run_loop, htc]
    rw [dispatch_tool_calls_all_ok rpc (tc :: tcs1) _ hall]
    rfl

/-- Witness for C1: two successful calls append their two results in
order and record two snapshots, the first holding only the first
result. -/
theorem process_query_dispatch_sequential_witness :
    dispatch_tool_calls sample_rpc sample_state [tc_weather, tc_news] =
      (⟨[user_msg "What is the weather?",
          tool_result_msg "call_1" "result for get_weather",
          tool_result_msg "call_2" "result for get_news"],
        [serialize_conversation
          [user_msg "What is the weather?",
            tool_result_msg "call_1" "result for get_weather"],
          serialize_conversation
            [user_msg "What is the weather?",
              tool_result_msg "call_1" "result for get_weather",
              tool_result_msg "call_2" "result for get_news"]],
        1⟩, none) := by
  have h := process_query_dispatch_sequential sample_rpc sample_state
    [tc_weather, tc_news] (by rfl)
  rw [h.1]
  rfl

/-- Helper: a batch with a failing call after an all-successful run of
calls stops at the failing call: the earlier results and their snapshots
are kept, the failing call's error propagates, and nothing after it
runs. -/
theorem dispatch_tool_calls_prefix_fail (rpc : ToolRpc) (bad : ToolCallRepr)
    (post : List ToolCallRepr) (e : PyError) (hbad : tc_failure rpc bad = some e)
    (pre : List ToolCallRepr) :
    ∀ st : LoopState, pre.all (fun tc => (run_tc rpc tc).isSome) = true →
      dispatch_tool_calls rpc st (pre ++ bad :: post) =
        (⟨st.messages ++ pre.filterMap (run_tc rpc),
          st.records ++ snapshots_from rpc st.messages pre, st.llmCalls⟩, some e) := by
  induction pre with
  | nil =>
    intro st _
    simp only [List.nil_append, List.filterMap_nil, List.append_nil, snapshots_from]
    match h1 : tc_attrs bad with
    | none =>
      simp only [tc_failure, h1, Option.some.injEq] at hbad
      simp [dispatch_tool_calls, h1, hbad]
    | some (id, name, args) =>
      match h2 : json_loads args with
      | Except.error m =>
        simp only [tc_failure, h1, h2, Option.some.injEq] at hbad
        simp [dispatch_tool_calls, h1, h2, hbad]
      | Except.ok payload =>
        match h3 : rpc name payload with
        | Except.error m =>
          simp only [tc_failure, h1, h2, h3, Option.some.injEq] at hbad
          simp [dispatch_tool_calls, h1, h2, h3, hbad]
        | Except.ok r => simp [tc_failure, h1, h2, h3] at hbad
  | cons tc pres ih =>
    intro st hpre
    rw [List.all_cons, Bool.and_eq_true] at hpre
    obtain ⟨htc, hrest⟩ := hpre
    match h1 : tc_attrs tc with
    | none => simp [run_tc, h1] at htc
    | some (id, name, args) =>
      match h2 : json_loads args with
      | Except.error m => simp [run_tc, h1, h2] at htc
      | Except.ok payload =>
        match h3 : rpc name payload with
        | Except.error m => simp [run_tc, h1, h2, h3] at htc
        | Except.ok result =>
          have hr : run_tc rpc tc = some (tool_result_msg id result.content) := by
            simp [run_tc, h1, h2, h3]
          simp only [List.cons_append, dispatch_tool_calls, h1, h2, h3]
          simp only [List.append_eq]
          rw [ih _ hrest]
          simp [snapshots_from, hr, List.filterMap_cons]

/-- C2: if a call in the batch fails, by its arguments not decoding
(the spec's ArgumentDecodeError) or by call_tool failing (the spec's
ToolExecutionError), the query aborts by raising that error: no later
call of the batch is executed, nothing is retried, and every message
appended before the failure, including the earlier tool results of the
same batch and their recorded snapshots, is still in the conversation
when the error propagates. -/
theorem process_query_fail_fast (rpc : ToolRpc) (st : LoopState)
    (pre : List ToolCallRepr) (bad : ToolCallRepr) (post : List ToolCallRepr)
    (e : PyError)
    (hpre : pre.all (fun tc => (run_tc rpc tc).isSome) = true)
    (hbad : tc_failure rpc bad = some e)
    (_habort : is_abort_error e = true) :
    dispatch_tool_calls rpc st (pre ++ bad :: post) =
      (⟨st.messages ++ pre.filterMap (run_tc rpc),
        st.records ++ snapshots_from rpc st.messages pre, st.llmCalls⟩, some e) :=
  dispatch_tool_calls_prefix_fail rpc bad post e hbad pre st hpre

/-- Witness for C2: with the batch t1, bad, t3 where bad has malformed
arguments, the result keeps t1's appended tool message and snapshot,
raises the decode error, and never reaches t3. -/
theorem process_query_fail_fast_witness :
    dispatch_tool_calls sample_rpc sample_state [tc_weather, tc_bad, tc_news] =
      (⟨[user_msg "What is the weather?",
          tool_result_msg "call_1" "result for get_weather"],
        [serialize_conversation
          [user_msg "What is the weather?",
            tool_result_msg "call_1" "result for get_weather"]],
        1⟩, some (PyError.jsonDecodeError "not json")) := by
  have h := process_query_fail_fast sample_rpc sample_state [tc_weather] tc_bad
    [tc_news] (PyError.jsonDecodeError "not json") (by rfl) (by rfl) (by rfl)
  rw [show [tc_weather, tc_bad, tc_news] = [tc_weather] ++ tc_bad :: [tc_news] from rfl]
  rw [h]
  rfl

/-- C3: when the first model response carries no tool requests (its
tool_calls attribute is None or an empty list), process_query terminates
after exactly one LLM call, whatever further responses the endpoint
might have given, and the final conversation is exactly the user message
followed by one assistant message holding the response text, with no
tool-role messages, recorded once. -/
theorem process_query_no_tool_response (rpc : ToolRpc) (ch : ChatChoice)
    (tl : List ChatChoice) (rest : List LLMResponse) (query : String)
    (prior : List Msg)
    (h : ch.message.tool_calls = none ∨ ch.message.tool_calls = some []) :
    process_query rpc (LLMResponse.mk (some (ch :: tl)) :: rest) query prior =
      (⟨[user_msg query,
          Msg.mk "assistant" (some (content_val ch.message.content)) none none],
        [serialize_conversation
          [user_msg query,
            Msg.mk "assistant" (some (content_val ch.message.content)) none none]],
        1⟩, none) := by
  rcases h with h | h <;>
    simp [process_query, run_loop, h, final_text_step, user_msg]

/-- Witness for C3: the query 2+2? answered directly with 4 gives the
two-message conversation, one snapshot, one LLM call. -/
theorem process_query_no_tool_response_witness :
    process_query sample_rpc
        [LLMResponse.mk (some [ChatChoice.mk (RespMessage.mk (some "4") none)])]
        "2+2?" [] =
      (⟨[user_msg "2+2?", Msg.mk "assistant" (some (JsonVal.str "4")) none none],
        [[SerMsg.mk "user" (some (JsonVal.str "2+2?")) none none,
          SerMsg.mk "assistant" (some (JsonVal.str "4")) none none]],
        1⟩, none) := by
  have h := process_query_no_tool_response sample_rpc
    (ChatChoice.mk (RespMessage.mk (some "4") none)) [] [] "2+2?" [] (Or.inl rfl)
  rw [h]
  rfl

/-- C10: an LLM response object without a choices attribute passes the
short-circuited final-text guard, but the branch body dereferences
response.choices immediately, so the loop raises an AttributeError
instead of appending a final assistant message: the conversation is left
exactly as it was (for a fresh query, just the user message), nothing is
recorded for the turn, and the DONE transition is never completed. -/
theorem process_query_no_choices_attr (rpc : ToolRpc) (st : LoopState)
    (rest : List LLMResponse) (query : String) (prior : List Msg) :
    run_loop rpc st (LLMResponse.mk none :: rest) =
      (⟨st.messages, st.records, st.llmCalls + 1⟩,
        some (PyError.attributeError "choices")) ∧
    process_query rpc (LLMResponse.mk none :: rest) query prior =
      (⟨[user_msg query], [], 1⟩, some (PyError.attributeError "choices")) := by
  constructor <;> simp [run_loop, process_query]

/-- C8: process_query resets the conversation: the outcome is identical
whatever self.messages held before the call, with the empty script the
conversation is exactly the one user message, on any script the run's
conversation extends that one user message, and both the batch
dispatcher and the loop only ever append to the conversation from any
state they are given: no already-appended message is mutated, removed or
reordered. -/
theorem conversation_reset_and_append_only (rpc : ToolRpc)
    (script : List LLMResponse) (query : String) (p1 p2 : List Msg) :
    process_query rpc script query p1 = process_query rpc script query p2 ∧
    (process_query rpc [] query p1).1.messages = [user_msg query] ∧
    [user_msg query] <+: (process_query rpc script query p1).1.messages ∧
    (∀ (st : LoopState) (tcs : List ToolCallRepr),
      st.messages <+: (dispatch_tool_calls rpc st tcs).1.messages) ∧
    (∀ (st : LoopState) (s : List LLMResponse),
      st.messages <+: (run_loop rpc st s).1.messages) := by
  refine ⟨rfl, rfl, ?_, ?_, ?_⟩
  · exact run_loop_messages_mono rpc script ⟨[user_msg query], [], 0⟩
  · intro st tcs; exact dispatch_messages_mono rpc tcs st
  · intro st s; exact run_loop_messages_mono rpc s st

/-- C4: discovery maps the server's descriptor list to exactly one
schema entry per descriptor, a dict with the type key set to the string
function and a function object holding the descriptor's name,
description and input schema as parameters, in the same order as the
server's response. -/
theorem tool_discovery_schema (ts : List ToolDescriptor) (i : Nat) :
    (build_tool_schemas ts).length = ts.length ∧
    (build_tool_schemas ts)[i]? =
      (ts[i]?).map (fun t => SchemaEntry.mk "function"
        (FunctionSchema.mk t.name t.description t.inputSchema)) := by
  constructor <;> simp [build_tool_schemas]

/-- C5: the recorder's per-message encoding keeps the role always,
copies content, tool_calls and tool_call_id exactly when the
corresponding key is present on the message and omits them otherwise,
and serializes each tool call position by position: a structured object
is normalized to the flat dictionary with id and function keys, function
holding name and arguments, while an already-flat mapping (and the
dictionary an object's own to_dict returns) passes through unchanged, so
a flat mapping already in the normalized shape stays in that shape. -/
theorem recorder_message_encoding (msgs : List Msg) (i : Nat) :
    (serialize_conversation msgs).length = msgs.length ∧
    (serialize_conversation msgs)[i]? = (msgs[i]?).map serialize_message ∧
    (∀ m : Msg, (serialize_message m).role = m.role ∧
      (serialize_message m).content = m.content ∧
      (serialize_message m).tool_call_id = m.tool_call_id ∧
      (serialize_message m).tool_calls =
        m.tool_calls.map (fun l => l.map serialize_tool_call)) ∧
    (∀ (id name : String) (a : ArgText),
      serialize_tool_call (ToolCallRepr.obj id name a) =
        JsonVal.obj [("id", JsonVal.str id),
          ("function", JsonVal.obj [("name", JsonVal.str name),
            ("arguments", JsonVal.str a.raw)])]) ∧
    (∀ d : JsonVal, serialize_tool_call (ToolCallRepr.dict d) = d) ∧
    (∀ (id name : String) (a : ArgText) (d : JsonVal),
      serialize_tool_call (ToolCallRepr.objWithToDict id name a d) = d) := by
  refine ⟨?_, ?_, ?_, ?_, ?_, ?_⟩ <;>
    simp [serialize_conversation, serialize_message, serialize_tool_call]

/-- A tool-role message missing its tool_call_id key, the example the
spec gives of a message that cannot be normalized. -/
def tool_msg_no_id : Msg :=
  Msg.mk "tool" (some (JsonVal.str "raw tool output")) none none

/-- Counterexample to C6: the recorder does not fail on a tool-role
message missing its tool_call_id; it serializes the message without the
field (silently omitting it) and writes the record normally, so no
EncodingError is raised on the spec's own example of an unnormalizable
message. -/
theorem recorder_missing_id_counterexample :
    serialize_conversation [tool_msg_no_id] =
      [SerMsg.mk "tool" (some (JsonVal.str "raw tool output")) none none] ∧
    (serialize_message tool_msg_no_id).tool_call_id = none ∧
    store_get
        (log_conversation [] (Timestamp.mk 2024 5 1 12 0 0 0) [tool_msg_no_id])
        (record_key (Timestamp.mk 2024 5 1 12 0 0 0)) =
      some [SerMsg.mk "tool" (some (JsonVal.str "raw tool output")) none none] :=
  ⟨rfl, rfl, rfl⟩

/-- C6 as amended: for a message missing its tool_call_id (such as a
tool-role message), the recorder serializes it without the tool_call_id
field, silently omitting it rather than failing, and the record is
written normally. -/
theorem recorder_missing_id_silent (role : String) (c : Option JsonVal)
    (store : RecordStore) (t : Timestamp) :
    serialize_message (Msg.mk role c none none) = SerMsg.mk role c none none ∧
    (serialize_message (Msg.mk role c none none)).tool_call_id = none ∧
    store_get (log_conversation store t [Msg.mk role c none none]) (record_key t) =
      some [SerMsg.mk role c none none] := by
  refine ⟨rfl, rfl, ?_⟩
  exact store_get_write_self store (record_key t) _

/-- Two conversations for the record-collision counterexample. -/
def conv_a : List Msg := [user_msg "first query snapshot"]

/-- The second, different conversation for the record-collision
counterexample. -/
def conv_b : List Msg :=
  [user_msg "first query snapshot",
    Msg.mk "assistant" (some (JsonVal.str "second snapshot")) none none]

/-- Counterexample to C7: the record identifier has only second
granularity, so two distinct instants in the same wall-clock second get
the same key, and the later snapshot overwrites the earlier one: after
writing conv_a at 12:00:00.000100 and conv_b at 12:00:00.000900 the
store holds a single record, conv_b's; conv_a's snapshot is lost. -/
theorem record_key_collision_counterexample :
    (Timestamp.mk 2024 5 1 12 0 0 100) ≠ (Timestamp.mk 2024 5 1 12 0 0 900) ∧
    record_key (Timestamp.mk 2024 5 1 12 0 0 100) =
      record_key (Timestamp.mk 2024 5 1 12 0 0 900) ∧
    serialize_conversation conv_a ≠ serialize_conversation conv_b ∧
    log_conversation
        (log_conversation [] (Timestamp.mk 2024 5 1 12 0 0 100) conv_a)
        (Timestamp.mk 2024 5 1 12 0 0 900) conv_b =
      [(record_key (Timestamp.mk 2024 5 1 12 0 0 100),
        serialize_conversation conv_b)] := by
  refine ⟨by decide, rfl, ?_, rfl⟩
  intro h
  simp [conv_a, conv_b, serialize_conversation] at h

/-- C7 as amended: every write files a complete snapshot of the full
conversation-so-far (a whole-conversation replacement, not an
append-in-place log) under the conversation-records location, keyed by a
sortable time-derived identifier of second granularity: the key is
exactly the wall-clock second (so writes in distinct seconds create
distinct records and leave other records untouched), but two snapshots
within the same second share the key and the later overwrites the
earlier. -/
theorem record_write_snapshot_semantics (store : RecordStore) (t t' : Timestamp)
    (msgs : List Msg) (k : RecordKey) :
    store_get (log_conversation store t msgs) (record_key t) =
      some (serialize_conversation msgs) ∧
    (k ≠ record_key t →
      store_get (log_conversation store t msgs) k = store_get store k) ∧
    (record_key t' = record_key t ↔
      (t'.year = t.year ∧ t'.month = t.month ∧ t'.day = t.day ∧
        t'.hour = t.hour ∧ t'.minute = t.minute ∧ t'.second = t.second)) := by
  refine ⟨store_get_write_self store (record_key t) _, ?_, ?_⟩
  · intro h
    exact store_get_write_other store (record_key t) k _ h
  · simp [record_key, RecordKey.mk.injEq]

/-- Witness for C7's amended theorem: writing one snapshot at one
instant leaves a different second's key unoccupied while the written
key reads back the snapshot, and a sub-second change of instant keeps
the key equal. -/
theorem record_write_snapshot_semantics_witness :
    store_get
        (log_conversation [] (Timestamp.mk 2024 5 1 12 0 0 0) conv_a)
        (RecordKey.mk 2024 5 1 12 0 1) = none ∧
    store_get
        (log_conversation [] (Timestamp.mk 2024 5 1 12 0 0 0) conv_a)
        (record_key (Timestamp.mk 2024 5 1 12 0 0 0)) =
      some (serialize_conversation conv_a) ∧
    record_key (Timestamp.mk 2024 5 1 12 0 0 999) =
      record_key (Timestamp.mk 2024 5 1 12 0 0 0) := by
  refine ⟨?_, ?_, ?_⟩
  · have h := (record_write_snapshot_semantics [] (Timestamp.mk 2024 5 1 12 0 0 0)
      (Timestamp.mk 2024 5 1 12 0 0 0) conv_a (RecordKey.mk 2024 5 1 12 0 1)).2.1
      (by decide)
    rw [h]; rfl
  · exact (record_write_snapshot_semantics [] (Timestamp.mk 2024 5 1 12 0 0 0)
      (Timestamp.mk 2024 5 1 12 0 0 0) conv_a (RecordKey.mk 2024 5 1 12 0 1)).1
  · exact (record_write_snapshot_semantics [] (Timestamp.mk 2024 5 1 12 0 0 0)
      (Timestamp.mk 2024 5 1 12 0 0 999) conv_a (RecordKey.mk 2024 5 1 12 0 1)).2.2.mpr
      (by decide)

/-- C9: a server script path ending in neither .py nor .js makes
connect_to_server raise ValueError before any transport resource is
acquired: no process is spawned and the session field stays unset. -/
theorem connect_rejects_non_script_path (server_script_path : String)
    (h1 : str_ends_with server_script_path ".py" = false)
    (h2 : str_ends_with server_script_path ".js" = false) :
    connect_to_server server_script_path =
      (⟨[], none⟩,
        some (PyError.valueError "Server script must be a .py or .js file")) ∧
    (connect_to_server server_script_path).1.spawned = [] ∧
    (connect_to_server server_script_path).1.session = none := by
  have h : connect_to_server server_script_path =
      (⟨[], none⟩,
        some (PyError.valueError "Server script must be a .py or .js file")) := by
    simp [connect_to_server, h1, h2]
  exact ⟨h, by rw [h], by rw [h]⟩

/-- Witness for C9: a .txt path is rejected with nothing acquired. -/
theorem connect_rejects_non_script_path_witness :
    connect_to_server "server.txt" =
      (⟨[], none⟩,
        some (PyError.valueError "Server script must be a .py or .js file")) :=
  (connect_rejects_non_script_path "server.txt" (by decide) (by decide)).1
